import Mathlib

/-!
Shallow embedding of the optimizer construction subsystem of `bycha`
(`src/bycha/optim/__init__.py`, function `build_optimizer`), together with
the parts of the optimizer handle and rate scheduler that the spec
describes but whose source files are not part of this snapshot.

Python dictionaries are modelled as association lists preserving insertion
order; Python numbers as rationals; `eval`-based literal parsing as a
total parser returning `Option`; exceptions as `Except` with error labels
matching the spec's error taxonomy (`KeyError` on a required configuration
key is the spec's `ConfigurationError`, `AttributeError` from the
`torch.optim` namespace lookup is the spec's `UnknownOptimizerError`).
-/

namespace Bycha

/-- Python configuration values: strings, numbers (ints and floats as
rationals), booleans, lists and nested dicts. -/
inductive Value where
  | str : String → Value
  | num : ℚ → Value
  | bool : Bool → Value
  | list : List Value → Value
  | dict : List (String × Value) → Value

/-- A Python dict of configuration entries, as an insertion-ordered
association list with the first binding of a key authoritative. -/
abbrev Config := List (String × Value)

/-- `d[k]` lookup: first binding of `k`, if any. -/
def lookupKey : Config → String → Option Value
  | [], _ => none
  | (k1, v) :: rest, k => if k1 = k then some v else lookupKey rest k

/-- `d.pop(k)`: remove the first binding of `k`, returning the value and
the remaining dict; `none` models the `KeyError` raised when `k` is
absent. -/
def popKey : Config → String → Option (Value × Config)
  | [], _ => none
  | (k1, v) :: rest, k =>
      if k1 = k then some (v, rest)
      else (popKey rest k).map (fun p => (p.1, (k1, v) :: p.2))

/-- ASCII lowercase of one character, the fragment of Python's
`str.lower` that optimizer class names exercise. -/
def lowerChar (c : Char) : Char :=
  if 'A' ≤ c ∧ c ≤ 'Z' then Char.ofNat (c.toNat + 32) else c

/-- Python's `name.lower()` on ASCII class names. -/
def lowerStr (s : String) : String := String.mk (s.toList.map lowerChar)

/-- Strip leading and trailing spaces. -/
def trimStr (s : String) : String :=
  String.mk
    (((s.toList.dropWhile (fun c => c = ' ')).reverse.dropWhile
        (fun c => c = ' ')).reverse)

/-- Split a character list at every comma. -/
def splitCommas : List Char → List (List Char)
  | [] => [[]]
  | c :: rest =>
      let r := splitCommas rest
      if c = ',' then [] :: r
      else
        match r with
        | [] => [[c]]
        | g :: gs => (c :: g) :: gs

/-- Digits of a decimal numeral, as a natural number. -/
def digitsToNat : List Char → Option ℕ
  | [] => none
  | cs => cs.foldl
      (fun acc c => acc.bind (fun n =>
        if c.isDigit then some (10 * n + (c.toNat - 48)) else none))
      (some 0)

/-- Parse an unsigned decimal numeral, with an optional fractional part,
into a rational: this is the numeric fragment of the Python literal
forms that configuration values use. -/
def parseUnsignedNum (cs : List Char) : Option ℚ :=
  match cs.span (fun c => c ≠ '.') with
  | (intPart, []) => (digitsToNat intPart).map (fun n => (n : ℚ))
  | (intPart, _dot :: fracPart) =>
      match digitsToNat intPart, digitsToNat fracPart with
      | some n, some f =>
          if fracPart.all Char.isDigit then
            some ((n : ℚ) + (f : ℚ) / ((10 : ℚ) ^ fracPart.length))
          else none
      | _, _ => none

/-- Parse an optionally signed decimal numeral. -/
def parseNum (s : String) : Option ℚ :=
  match s.toList with
  | '-' :: rest => (parseUnsignedNum rest).map (fun q => -q)
  | cs => parseUnsignedNum cs

/-- Parse one flat list element: a quoted string, a boolean, or a
number. -/
def parseListElem (s : String) : Option Value :=
  let t := trimStr s
  if t = "True" then some (.bool true)
  else if t = "False" then some (.bool false)
  else
    match t.toList with
    | '\'' :: rest =>
        match rest.reverse with
        | '\'' :: mid => some (.str (String.mk mid.reverse))
        | _ => none
    | '"' :: rest =>
        match rest.reverse with
        | '"' :: mid => some (.str (String.mk mid.reverse))
        | _ => none
    | _ => (parseNum t).map Value.num

/-- Model of `eval(v)` restricted to the literal forms configuration
values take in this repository (numbers, booleans, flat lists of quoted
strings / numbers / booleans); any other string fails to parse, exactly
as `eval` raises on a string that is not a valid expression. -/
def parseLiteral (s : String) : Option Value :=
  if s = "True" then some (.bool true)
  else if s = "False" then some (.bool false)
  else
    match parseNum s with
    | some q => some (.num q)
    | none =>
        match s.toList with
        | '[' :: rest =>
            match rest.reverse with
            | ']' :: mid =>
                let inner := mid.reverse
                if trimStr (String.mk inner) = "" then some (.list [])
                else
                  (((splitCommas inner).map String.mk).mapM
                      parseListElem).map Value.list
            | _ => none
        | _ => none

/-- One iteration of the `kwargs` loop of `build_optimizer` (lines
24-30): `try: v = eval(v) / except: pass / finally: kwargs[k] = v`.
`eval` succeeds only on strings that are valid expressions; on any other
value (`eval` of a non-string raises `TypeError`) or on a string that
fails to parse, the bare `except` swallows the exception and the
original value is retained. -/
def resolveValue : Value → Value
  | .str s =>
      match parseLiteral s with
      | some v => v
      | none => .str s
  | v => v

/-- The whole `kwargs` loop (lines 23-31): every remaining key keeps its
place, with its value passed through `resolveValue`. -/
def resolveConfigs (configs : Config) : Config :=
  configs.map (fun p => (p.1, resolveValue p.2))

/-- Errors `build_optimizer` can raise, labelled with the spec's
taxonomy: `configurationError k` is the `KeyError` raised by
`configs.pop(k)` on a missing required key; `unknownOptimizerError n` is
the `AttributeError` raised by `getattr(torch.optim, n)` when the class
name resolves nowhere; `invalidValue k` stands for the `TypeError` or
`AttributeError` raised when the value under key `k` has the wrong
type (for instance a non-string `class`). -/
inductive BuildError where
  | configurationError : String → BuildError
  | unknownOptimizerError : String → BuildError
  | invalidValue : String → BuildError
deriving DecidableEq, Repr

/-- Modelled from the spec: the process-wide `Environment` singleton
(`bycha.utils.runtime`, not under `src/`), restricted to the two fields
`build_optimizer` reads — the configured worker count
`distributed_world` and the whole-run mixed-precision flag `fp16`. -/
structure Environment where
  distributed_world : ℕ
  fp16 : Bool
deriving DecidableEq, Repr

/-- A model, seen through the only capability this subsystem consumes
(spec §6): its named-parameter enumeration. Parameters are identified by
natural numbers standing for the distinct tensor objects. -/
structure PModel where
  namedParams : List (String × ℕ)
deriving DecidableEq, Repr

/-- `model.parameters()`: the parameters without their names. -/
def PModel.parameters (m : PModel) : List ℕ := m.namedParams.map Prod.snd

/-- The one-shot iterator returned by `model.named_parameters()`.
PyTorch returns a generator: iterating it consumes it, and a second
iteration yields nothing. -/
structure NamedParamGen where
  remaining : List (String × ℕ)
deriving DecidableEq, Repr

/-- Run a filtering list comprehension over the generator: it yields the
matching elements of what is left and leaves the generator exhausted. -/
def NamedParamGen.comprehend (g : NamedParamGen)
    (pred : String × ℕ → Bool) : List (String × ℕ) × NamedParamGen :=
  (g.remaining.filter pred, ⟨[]⟩)

/-- Python's `nd in n` substring test on strings. -/
def strContains (hay pat : String) : Bool :=
  decide (pat.toList <:+: hay.toList)

/-- Python's `any(nd in n for nd in no_decay)` for a parameter name `n`
and the configured `no_decay` value. The configurations this subsystem
receives use a list of strings; elements of any other shape would raise
`TypeError` in Python and lie outside the modelled domain. -/
def matchesNoDecay (n : String) : Value → Bool
  | .list l =>
      l.any (fun e =>
        match e with
        | .str nd => strContains n nd
        | _ => false)
  | _ => false

/-- One parameter-group dict `{'params': ..., 'weight_decay': ...}`. -/
structure ParamGroup where
  params : List ℕ
  weight_decay : Value

/-- What `build_optimizer` passes to the optimizer class as its first
argument: either the bare `model.parameters()` iterator (no `no_decay`
key) or an explicit list of parameter groups. -/
inductive GroupedParameters where
  | raw : List ℕ → GroupedParameters
  | groups : List ParamGroup → GroupedParameters

/-- Lines 53-64 of `build_optimizer`: the parameter grouping.
`named_parameters = model.named_parameters()` binds a one-shot
generator; popping `weight_decay` raises `KeyError` when `no_decay` is
present without it; then the two list comprehensions both draw from the
same generator, the first consuming it entirely. -/
def groupedParams (model : PModel) (configs : Config) :
    Except BuildError (GroupedParameters × Config) :=
  match popKey configs "no_decay" with
  | some (no_decay, configs1) =>
      let named_parameters : NamedParamGen := ⟨model.namedParams⟩
      match popKey configs1 "weight_decay" with
      | none => .error (.configurationError "weight_decay")
      | some (weight_decay, configs2) =>
          let (decayed, named_parameters) :=
            named_parameters.comprehend
              (fun np => !(matchesNoDecay np.1 no_decay))
          let (undecayed, _) :=
            named_parameters.comprehend
              (fun np => matchesNoDecay np.1 no_decay)
          .ok (.groups
                [⟨decayed.map Prod.snd, weight_decay⟩,
                 ⟨undecayed.map Prod.snd, .num 0⟩],
               configs2)
  | none => .ok (.raw model.parameters, configs)

/-- All parameters reachable through the grouping, in order: what the
constructed optimizer will actually update. -/
def GroupedParameters.allParams : GroupedParameters → List ℕ
  | .raw ps => ps
  | .groups gs => gs.flatMap ParamGroup.params

/-- The implementation an optimizer class name resolves to: an entry of
the internal registry (keyed by lowercased name) or a member of the
`torch.optim` namespace (keyed verbatim). -/
inductive ResolvedCls where
  | custom : String → ResolvedCls
  | torch : String → ResolvedCls
deriving DecidableEq, Repr

/-- Lines 46-51 of `build_optimizer`: `if name.lower() in registry`
consults the custom registry under the lowercased name; otherwise
`getattr(torch.optim, name)` looks the name up verbatim in the
ecosystem namespace, raising `AttributeError` when absent. The registry
and the namespace contents are inputs: they are populated by module
scanning and by the installed ecosystem respectively. -/
def resolveCls (registry torchNames : List String) (name : String) :
    Except BuildError ResolvedCls :=
  if registry.contains (lowerStr name) then .ok (.custom (lowerStr name))
  else if torchNames.contains name then .ok (.torch name)
  else .error (.unknownOptimizerError name)

/-- Modelled from the spec: `RateSchedule` (§4.2;
`bycha.utils.rate_schedulers` is not under `src/`). It owns its
configuration and a step counter; the rate is a pure function of
both. -/
structure RateScheduler where
  config : Value
  nsteps : ℕ

/-- Modelled from the spec: the deterministic step-indexed rate function
(§4.2 — "rate(step) is a deterministic function of step and the
policy's fixed parameters"). The `constant` policy returns its `rate`
parameter at every step; every other class name stands for a
deterministic decaying policy of the same `rate` parameter, as a
representative of the interchangeable non-constant policies. -/
def specRate (config : Value) (nsteps : ℕ) : ℚ :=
  let base : ℚ :=
    match config with
    | .dict d =>
        match lookupKey d "rate" with
        | some (.num r) => r
        | _ => 0
    | .num r => r
    | _ => 0
  match config with
  | .dict d =>
      match lookupKey d "class" with
      | some (.str s) =>
          if s = "constant" then base else base / ((nsteps : ℚ) + 1)
      | _ => base / ((nsteps : ℚ) + 1)
  | _ => base

/-- `create_rate_scheduler(lr)`: a fresh scheduler at step 0. -/
def createRateScheduler (lr : Value) : RateScheduler := ⟨lr, 0⟩

/-- Modelled from the spec: `lr_scheduler.build()` initializes internal
state (§4.2); on this data it resets the step counter. -/
def RateScheduler.build (s : RateScheduler) : RateScheduler :=
  ⟨s.config, 0⟩

/-- `lr_scheduler.rate`, a side-effect-free read. -/
def RateScheduler.rate (s : RateScheduler) : ℚ :=
  specRate s.config s.nsteps

/-- Modelled from the spec: the keyword arguments of the
`OptimizerHandle` constructor beyond model, optimizer and schedule
(`getfullargspec(Optimizer).args[4:]`; `bycha/optim/optimizer.py` is
not under `src/`). The spec's configuration schema (§3, §6) names
`update_frequency` as the handle-specific key. -/
def handleArgNames : List String := ["update_frequency"]

/-- Lines 41-44 of `build_optimizer`: move every handle-specific key
from `configs` into `optimizer_kwargs`. -/
def extractHandleKwargs (configs : Config) : Config × Config :=
  handleArgNames.foldl
    (fun acc key =>
      match popKey acc.2 key with
      | some (v, rest) => (acc.1 ++ [(key, v)], rest)
      | none => acc)
    ([], configs)

/-- The base optimizer object `cls(grouped_parameters, lr=..., **configs)`
(line 66): the resolved class applied to the grouping, the schedule's
initial rate, and the remaining keyword arguments verbatim. The class
itself is an external algorithm; the embedding records what it was
constructed from. -/
structure RawOptimizer where
  cls : ResolvedCls
  grouped : GroupedParameters
  lr : ℚ
  kwargs : Config

/-- Gradient-compression mode of the distributed wrapper. -/
inductive Compression where
  | uncompressed
  | fp16
deriving DecidableEq, Repr

/-- `hvd.DistributedOptimizer(...)`: the base optimizer wrapped for
collective gradient reduction. `backwardPassesPerStep` records the
`backward_passes_per_step` keyword when it was passed (`none` leaves
horovod's default of one backward pass per reduction). Horovod's
contract, which the wrapper exposes: gradients are reduced across
workers once every `backward_passes_per_step` backward passes. -/
structure DistributedOptimizer where
  inner : RawOptimizer
  backwardPassesPerStep : Option Value
  compression : Compression

/-- The optimizer after the optional wrapping stages. -/
inductive WrappedOptimizer where
  | raw : RawOptimizer → WrappedOptimizer
  | dist : DistributedOptimizer → WrappedOptimizer
  | apexWrapped : WrappedOptimizer → Value → WrappedOptimizer

/-- Observable actions of the construction pipeline and of the handle's
operations. -/
inductive Event where
  | wrapDistributed
  | broadcastParameters
  | broadcastOptimizerState
  | apexAmpInit
  | gradReduce
deriving DecidableEq, Repr

/-- Collective operations: the ones every worker must enter together
(spec §5 and glossary). -/
def Event.isCollective : Event → Bool
  | .broadcastParameters => true
  | .broadcastOptimizerState => true
  | .gradReduce => true
  | _ => false

/-- Lines 68-80 of `build_optimizer`: when the configured worker count
exceeds one, wrap the base optimizer in `hvd.DistributedOptimizer`
(forwarding `update_frequency` as `backward_passes_per_step` and
enabling fp16 compression when the environment requests fp16 and the
apex path is off), then broadcast the model's parameter state and the
optimizer's state from the root worker. Otherwise the stage does
nothing. -/
def distributedStage (env : Environment) (enable_apex : Bool)
    (optimizer_kwargs : Config) (optimizer : RawOptimizer) :
    WrappedOptimizer × List Event :=
  if env.distributed_world > 1 then
    let bps := lookupKey optimizer_kwargs "update_frequency"
    let comp :=
      if env.fp16 && !enable_apex then Compression.fp16
      else Compression.uncompressed
    (.dist ⟨optimizer, bps, comp⟩,
     [.wrapDistributed, .broadcastParameters, .broadcastOptimizerState])
  else
    (.raw optimizer, [])

/-- Lines 82-87 of `build_optimizer`: when `enable_apex` is set, rewrap
model and optimizer through `amp.initialize` with `num_losses` equal to
the configured `update_frequency` (defaulting to one). -/
def apexStage (enable_apex : Bool) (optimizer_kwargs : Config)
    (optimizer : WrappedOptimizer) : WrappedOptimizer × List Event :=
  if enable_apex then
    let update_frequency :=
      match lookupKey optimizer_kwargs "update_frequency" with
      | some v => v
      | none => .num 1
    (.apexWrapped optimizer update_frequency, [.apexAmpInit])
  else
    (optimizer, [])

/-- Modelled from the spec: the `OptimizerHandle` facade (§4.7;
`bycha/optim/optimizer.py` is not under `src/`): it owns the wrapped
optimizer, the rate schedule, and the handle keyword arguments
(including the `enable_apex` flag added at line 88). -/
structure OptimizerHandle where
  optimizer : WrappedOptimizer
  lr_scheduler : RateScheduler
  kwargs : Config

/-- Modelled from the spec: the collective operations one `step()` of
the handle performs. Only the distributed wrapper reduces gradients
across workers (§4.5, §4.7); the raw and apex-wrapped optimizers issue
no collective call. -/
def WrappedOptimizer.stepEvents : WrappedOptimizer → List Event
  | .raw _ => []
  | .dist _ => [.gradReduce]
  | .apexWrapped w _ => w.stepEvents

/-- Modelled from the spec: `zero_grad()` delegates to the underlying
optimizer and has no other effect (§4.7); no collective operation is
involved. -/
def WrappedOptimizer.zeroGradEvents : WrappedOptimizer → List Event
  | _ => []

/-- Lines 19-66 of `build_optimizer`: everything from the deep copy of
the caller's configuration up to the construction of the base
optimizer. Each `←` models a Python statement that can raise. -/
def frontEnd (registry torchNames : List String) (model : PModel)
    (configs0 : Config) :
    Except BuildError (RateScheduler × Config × RawOptimizer) := do
  let configs := configs0
  let (classv, configs) ←
    match popKey configs "class" with
    | some p => Except.ok p
    | none => Except.error (.configurationError "class")
  let name ←
    match classv with
    | .str s => Except.ok s
    | _ => Except.error (.invalidValue "class")
  let configs := resolveConfigs configs
  let (lr, configs) ←
    match popKey configs "lr" with
    | some p => Except.ok p
    | none => Except.error (.configurationError "lr")
  let lr_scheduler := (createRateScheduler lr).build
  let (optimizer_kwargs, configs) := extractHandleKwargs configs
  let cls ← resolveCls registry torchNames name
  let (grouped_parameters, configs) ← groupedParams model configs
  Except.ok
    (lr_scheduler, optimizer_kwargs,
     ⟨cls, grouped_parameters, lr_scheduler.rate, configs⟩)

/-- Lines 68-92 of `build_optimizer`: the wrapping stages and the
handle construction, which raise nothing. -/
def assembleHandle (env : Environment) (enable_apex : Bool)
    (model : PModel)
    (front : RateScheduler × Config × RawOptimizer) :
    (PModel × OptimizerHandle) × List Event :=
  let (lr_scheduler, optimizer_kwargs, base) := front
  let (optimizer, ev1) :=
    distributedStage env enable_apex optimizer_kwargs base
  let (optimizer, ev2) := apexStage enable_apex optimizer_kwargs optimizer
  let optimizer_kwargs :=
    optimizer_kwargs ++ [("enable_apex", Value.bool enable_apex)]
  ((model, ⟨optimizer, lr_scheduler, optimizer_kwargs⟩), ev1 ++ ev2)

/-- The whole of `build_optimizer(model, configs, enable_apex)`. The
environment, the custom registry and the `torch.optim` namespace are
explicit inputs; on success the result carries the returned
`(model, handle)` pair together with the trace of observable wrapping
and collective events, and on failure only the error. -/
def build_optimizer (env : Environment)
    (registry torchNames : List String) (model : PModel)
    (configs : Config) (enable_apex : Bool) :
    Except BuildError ((PModel × OptimizerHandle) × List Event) :=
  (frontEnd registry torchNames model configs).map
    (assembleHandle env enable_apex model)

/-- Whether the distributed wrapping stage was applied somewhere in the
wrapper chain. -/
def WrappedOptimizer.isDistWrapped : WrappedOptimizer → Bool
  | .raw _ => false
  | .dist _ => true
  | .apexWrapped w _ => w.isDistWrapped

/-- Modelled from the spec: the runtime state one handle drives (§4.7,
§5; `bycha/optim/optimizer.py` is not under `src/`): the model's
parameter values (mutated in place by `step()`), the underlying
optimizer's internal state (one buffer per parameter), and the rate
schedule's step counter. -/
structure HandleState where
  params : List ℚ
  optState : List ℚ
  nsteps : ℕ
deriving DecidableEq, Repr

/-- Modelled from the spec: the unit `state_dict()` emits — the
underlying optimizer's state and the rate schedule's step counter,
serialized together (§4.7). The model's own parameter values are saved
by the model's save/load collaborator, outside this unit. -/
structure HandleStateDict where
  optState : List ℚ
  nsteps : ℕ
deriving DecidableEq, Repr

/-- Modelled from the spec: a freshly built handle's state over a model
whose parameter values are `params0`: the optimizer starts with empty
(zero) internal buffers and the schedule at step zero. -/
def initHandleState (params0 : List ℚ) : HandleState :=
  ⟨params0, params0.map (fun _ => 0), 0⟩

/-- Modelled from the spec: one `step()` of the handle (§4.7): read the
schedule's current rate, advance the underlying optimizer by one update
(a deterministic momentum-style rule standing in for the external
algorithm — this subsystem defines no optimization algorithm of its
own), then advance the schedule's step counter, in lock-step. -/
def stepOnce (lrcfg : Value) (s : HandleState) (grads : List ℚ) :
    HandleState :=
  let r := specRate lrcfg s.nsteps
  let optState := List.zipWith (fun m g => m / 2 + g) s.optState grads
  let params := List.zipWith (fun p m => p - r * m) s.params optState
  ⟨params, optState, s.nsteps + 1⟩

/-- Repeated `step()` calls over a list of per-step gradient inputs. -/
def runSteps (lrcfg : Value) (s : HandleState)
    (inputs : List (List ℚ)) : HandleState :=
  inputs.foldl (stepOnce lrcfg) s

/-- Modelled from the spec: `state_dict()` (§4.7). -/
def handleStateDict (s : HandleState) : HandleStateDict :=
  ⟨s.optState, s.nsteps⟩

/-- Modelled from the spec: `load_state_dict()` restores the optimizer
state and the step counter as one unit (§4.7), leaving the model's
parameter values to the model's own load. -/
def handleLoadStateDict (s : HandleState) (sd : HandleStateDict) :
    HandleState :=
  ⟨s.params, sd.optState, sd.nsteps⟩

/-- A store of live Python dict objects, indexed by reference: the heap
fragment `build_optimizer`'s configuration handling touches. -/
structure DictStore where
  dicts : List Config

/-- Allocate a fresh dict holding `c`, returning its reference. -/
def DictStore.alloc (st : DictStore) (c : Config) : DictStore × ℕ :=
  (⟨st.dicts ++ [c]⟩, st.dicts.length)

/-- Read the dict behind a reference. -/
def DictStore.read (st : DictStore) (r : ℕ) : Config :=
  st.dicts.getD r []

/-- Overwrite the dict behind a reference. -/
def DictStore.write (st : DictStore) (r : ℕ) (c : Config) : DictStore :=
  ⟨st.dicts.set r c⟩

/-- Pop a key from the dict behind a reference, ignoring the `KeyError`
outcome: for the frame question only the mutation matters. -/
def DictStore.popAt (st : DictStore) (r : ℕ) (k : String) : DictStore :=
  match popKey (st.read r) k with
  | some (_, rest) => st.write r rest
  | none => st

/-- The configuration mutations of `build_optimizer` (lines 20-56),
played against the store: `configs = deepcopy(configs)` allocates a
fresh dict copying the caller's (line 20), and every later removal or
value replacement — `class` (21), the literal-parse loop rebinding
`configs = kwargs` (23-31), `lr` (36), the handle-specific keys
(41-44), `no_decay` and `weight_decay` (53-56) — targets the fresh
reference only. Returns the final store and the working reference. -/
def buildConfigMutations (st0 : DictStore) (caller : ℕ) :
    DictStore × ℕ :=
  let (st1, work) := st0.alloc (st0.read caller)
  let st2 := st1.popAt work "class"
  let st3 := st2.write work (resolveConfigs (st2.read work))
  let st4 := st3.popAt work "lr"
  let st5 := handleArgNames.foldl (fun st k => st.popAt work k) st4
  let st6 := st5.popAt work "no_decay"
  let st7 := st6.popAt work "weight_decay"
  (st7, work)

/-- C1: the claim asserts that with `no_decay` present every parameter
whose name contains an exclusion substring lands in the zero-decay
group and the two groups partition the full parameter set. The code
violates this: `model.named_parameters()` is a one-shot generator, the
first list comprehension exhausts it, so the zero-decay group is always
empty and the excluded parameters land in no group at all. Evaluated
here on a two-parameter model `[("encoder.weight", 0),
("encoder.bias", 1)]` with `no_decay = ["bias"]` and
`weight_decay = 1/100`: the produced groups are `[[0], []]`, parameter
`1` is dropped, and the union `[0]` differs from the full parameter set
`[0, 1]`. -/
theorem groupedParams_drops_no_decay_parameters :
    groupedParams ⟨[("encoder.weight", 0), ("encoder.bias", 1)]⟩
        [("no_decay", .list [.str "bias"]),
         ("weight_decay", .num (1/100))] =
      .ok (.groups
            [⟨[0], .num (1/100)⟩, ⟨[], .num 0⟩], []) ∧
    (GroupedParameters.groups
        [⟨[0], .num (1/100)⟩, ⟨[], .num 0⟩]).allParams = [0] ∧
    PModel.parameters ⟨[("encoder.weight", 0), ("encoder.bias", 1)]⟩ =
      [0, 1] ∧
    (frontEnd [] ["Adam"] ⟨[("encoder.weight", 0), ("encoder.bias", 1)]⟩
        [("class", .str "Adam"), ("lr", .num 1),
         ("no_decay", .list [.str "bias"]),
         ("weight_decay", .num (1/100))]).map
      (fun f => f.2.2.grouped.allParams) = .ok [0] :=
  ⟨rfl, rfl, rfl, rfl⟩

/-- Inversion of `Except.map` on a successful result. -/
theorem exceptMap_ok {ε α β : Type} (f : α → β) (e : Except ε α)
    (b : β) : e.map f = .ok b ↔ ∃ a, e = .ok a ∧ f a = b := by
  cases e <;> simp [Except.map]

/-- C2 counterexample: the claim asserts that requesting both the
distributed fp16 compression path (`fp16` with worker count 2) and the
apex path for one run raises `PrecisionConflictError` before any
optimizer is constructed. The code raises nothing: on a conflicting
but otherwise valid configuration, construction succeeds. -/
theorem build_both_precision_paths_succeeds :
    (build_optimizer ⟨2, true⟩ [] ["Adam"] ⟨[("w", 0)]⟩
        [("class", .str "Adam"), ("lr", .num 1)] true).isOk = true :=
  rfl

/-- C2 amended: when both precision paths are requested (worker count
above one with `enable_apex`), no error is raised: the distributed
wrapper is built with compression simply omitted (the fp16 compression
option is gated on `not enable_apex`), and the apex stage still
rewraps the result. -/
theorem distributedStage_apex_conflict_drops_compression
    (env : Environment) (kwargs : Config) (opt : RawOptimizer)
    (hw : 1 < env.distributed_world) :
    (distributedStage env true kwargs opt).1 =
      .dist ⟨opt, lookupKey kwargs "update_frequency",
             Compression.uncompressed⟩ ∧
    (apexStage true kwargs (distributedStage env true kwargs opt).1).1 =
      .apexWrapped (distributedStage env true kwargs opt).1
        ((lookupKey kwargs "update_frequency").getD (.num 1)) := by
  constructor
  · simp [distributedStage, hw]
  · simp only [apexStage, if_true]
    cases lookupKey kwargs "update_frequency" <;> rfl

/-- Witness for the C2 amended theorem at worker count 2, `fp16` on,
and a configured update frequency of 4. -/
theorem distributedStage_apex_conflict_drops_compression_witness :
    (1 < (2 : ℕ)) ∧
    ((distributedStage ⟨2, true⟩ true [("update_frequency", .num 4)]
        ⟨.torch "Adam", .raw [0], 1, []⟩).1 =
      .dist ⟨⟨.torch "Adam", .raw [0], 1, []⟩,
             lookupKey [("update_frequency", .num 4)] "update_frequency",
             Compression.uncompressed⟩ ∧
    (apexStage true [("update_frequency", .num 4)]
        (distributedStage ⟨2, true⟩ true [("update_frequency", .num 4)]
          ⟨.torch "Adam", .raw [0], 1, []⟩).1).1 =
      .apexWrapped
        (distributedStage ⟨2, true⟩ true [("update_frequency", .num 4)]
          ⟨.torch "Adam", .raw [0], 1, []⟩).1
        ((lookupKey [("update_frequency", .num 4)]
            "update_frequency").getD (.num 1))) :=
  ⟨by decide,
   distributedStage_apex_conflict_drops_compression ⟨2, true⟩
     [("update_frequency", .num 4)] ⟨.torch "Adam", .raw [0], 1, []⟩
     (by decide)⟩

/-- C3 counterexample: the claim quantifies over every configuration
whose class name is absent from both tiers, but the required `lr` key
is popped before the class name is resolved, so a configuration with
an unknown class and no `lr` raises the missing-`lr` error
(`KeyError`, the spec's `ConfigurationError`), not
`UnknownOptimizerError`. `"frobnicator"` is absent from both an empty
registry and the namespace `["Adam"]`. -/
theorem build_unknown_class_without_lr_errors_on_lr :
    build_optimizer ⟨1, false⟩ [] ["Adam"] ⟨[("w", 0)]⟩
        [("class", .str "frobnicator")] false =
      .error (.configurationError "lr") ∧
    ([] : List String).contains (lowerStr "frobnicator") = false ∧
    ["Adam"].contains "frobnicator" = false :=
  ⟨rfl, rfl, rfl⟩

/-- C3 amended: provided the configuration carries a `class` string and
an `lr` key, a class name absent from the custom registry (under its
lowercased form) and from the `torch.optim` namespace (verbatim) makes
`build_optimizer` fail with `UnknownOptimizerError`; the `Except`
result carries only the error, so no optimizer, parameter group or
schedule object escapes the call. -/
theorem build_unknown_class_raises_unknownOptimizerError
    (env : Environment) (registry torchNames : List String)
    (model : PModel) (cfg rest rest2 : Config) (name : String)
    (apex : Bool) (lrv : Value)
    (hclass : popKey cfg "class" = some (.str name, rest))
    (hlr : popKey (resolveConfigs rest) "lr" = some (lrv, rest2))
    (hreg : registry.contains (lowerStr name) = false)
    (htorch : torchNames.contains name = false) :
    build_optimizer env registry torchNames model cfg apex =
      .error (.unknownOptimizerError name) := by
  have hreg1 : ¬ lowerStr name ∈ registry := by simpa using hreg
  have htorch1 : ¬ name ∈ torchNames := by simpa using htorch
  simp [build_optimizer, frontEnd, hclass, hlr, resolveCls, hreg1,
    htorch1, Except.map, bind, Except.bind]

/-- Witness for the C3 amended theorem on the configuration
`{class: "frobnicator", lr: 1}` against an empty registry and the
namespace `["Adam"]`. -/
theorem build_unknown_class_raises_unknownOptimizerError_witness :
    popKey [("class", Value.str "frobnicator"), ("lr", Value.num 1)]
        "class" =
      some (.str "frobnicator", [("lr", Value.num 1)]) ∧
    popKey (resolveConfigs [("lr", Value.num 1)]) "lr" =
      some (Value.num 1, []) ∧
    ([] : List String).contains (lowerStr "frobnicator") = false ∧
    (["Adam"] : List String).contains "frobnicator" = false ∧
    build_optimizer ⟨1, false⟩ [] ["Adam"] ⟨[("w", 0)]⟩
        [("class", .str "frobnicator"), ("lr", .num 1)] false =
      .error (.unknownOptimizerError "frobnicator") :=
  ⟨rfl, rfl, rfl, rfl,
   build_unknown_class_raises_unknownOptimizerError ⟨1, false⟩ []
     ["Adam"] ⟨[("w", 0)]⟩
     [("class", .str "frobnicator"), ("lr", .num 1)]
     [("lr", Value.num 1)] [] "frobnicator" false (Value.num 1)
     rfl rfl rfl rfl⟩

/-- Literal-parse resolution touches only values: looking a key up
after resolution finds the resolved form of what was there before. -/
theorem lookupKey_resolveConfigs (c : Config) (k : String) :
    lookupKey (resolveConfigs c) k = (lookupKey c k).map resolveValue := by
  induction c with
  | nil => rfl
  | cons p rest ih =>
      by_cases h : p.1 = k
      · simp [resolveConfigs, lookupKey, h]
      · simpa [resolveConfigs, lookupKey, h] using ih

/-- `pop` fails exactly when lookup does. -/
theorem popKey_eq_none (c : Config) (k : String) :
    popKey c k = none ↔ lookupKey c k = none := by
  induction c with
  | nil => simp [popKey, lookupKey]
  | cons p rest ih =>
      by_cases h : p.1 = k <;> simp [popKey, lookupKey, h, ih]

/-- C4 counterexample: the claim asserts a `ConfigurationError` when
exactly one of `no_decay` and `weight_decay` is present, in either
direction. The code only checks one direction: `weight_decay` without
`no_decay` is not an error — the key stays in the residual
configuration and is handed to the optimizer class verbatim. -/
theorem build_weight_decay_without_no_decay_succeeds :
    (build_optimizer ⟨1, false⟩ [] ["Adam"] ⟨[("w", 0)]⟩
        [("class", .str "Adam"), ("lr", .num 1),
         ("weight_decay", .num (1/100))] false).isOk = true ∧
    (frontEnd [] ["Adam"] ⟨[("w", 0)]⟩
        [("class", .str "Adam"), ("lr", .num 1),
         ("weight_decay", .num (1/100))]).map
      (fun f => lookupKey f.2.2.kwargs "weight_decay") =
      .ok (some (.num (1/100))) :=
  ⟨rfl, rfl⟩

/-- C4 amended: `build_optimizer` fails with the missing-key
`ConfigurationError` when `lr` is absent, and — provided the earlier
stages pass — when `no_decay` is present without `weight_decay`; the
converse direction (`weight_decay` without `no_decay`) raises
nothing. Both failures are error returns carrying no constructed
handle. -/
theorem build_configurationError_conditions :
    (∀ (env : Environment) (registry torchNames : List String)
        (model : PModel) (cfg rest : Config) (name : String)
        (apex : Bool),
       popKey cfg "class" = some (.str name, rest) →
       lookupKey rest "lr" = none →
       build_optimizer env registry torchNames model cfg apex =
         .error (.configurationError "lr")) ∧
    (∀ (env : Environment) (registry torchNames : List String)
        (model : PModel) (cfg rest rest2 rest3 : Config)
        (name : String) (apex : Bool) (lrv nd : Value)
        (cls : ResolvedCls),
       popKey cfg "class" = some (.str name, rest) →
       popKey (resolveConfigs rest) "lr" = some (lrv, rest2) →
       resolveCls registry torchNames name = .ok cls →
       popKey (extractHandleKwargs rest2).2 "no_decay" =
         some (nd, rest3) →
       lookupKey rest3 "weight_decay" = none →
       build_optimizer env registry torchNames model cfg apex =
         .error (.configurationError "weight_decay")) := by
  constructor
  · intro env registry torchNames model cfg rest name apex hclass hlr
    have hnone : popKey (resolveConfigs rest) "lr" = none := by
      rw [popKey_eq_none, lookupKey_resolveConfigs, hlr]; rfl
    simp [build_optimizer, frontEnd, hclass, hnone, Except.map, bind,
      Except.bind]
  · intro env registry torchNames model cfg rest rest2 rest3 name apex
      lrv nd cls hclass hlr hcls hnd hwd
    have hwd1 : popKey rest3 "weight_decay" = none := by
      rw [popKey_eq_none]; exact hwd
    simp [build_optimizer, frontEnd, hclass, hlr, hcls, groupedParams,
      hnd, hwd1, Except.map, bind, Except.bind]

/-- Witness for the C4 amended theorem: a configuration without `lr`
errors on `lr`, and one with `no_decay = ["bias"]` but no
`weight_decay` errors on `weight_decay`. -/
theorem build_configurationError_conditions_witness :
    popKey [("class", Value.str "Adam")] "class" =
      some (.str "Adam", []) ∧
    lookupKey ([] : Config) "lr" = none ∧
    build_optimizer ⟨1, false⟩ [] ["Adam"] ⟨[("w", 0)]⟩
        [("class", .str "Adam")] false =
      .error (.configurationError "lr") ∧
    build_optimizer ⟨1, false⟩ [] ["Adam"] ⟨[("w", 0)]⟩
        [("class", .str "Adam"), ("lr", .num 1),
         ("no_decay", .list [.str "bias"])] false =
      .error (.configurationError "weight_decay") :=
  ⟨rfl, rfl,
   build_configurationError_conditions.1 ⟨1, false⟩ [] ["Adam"]
     ⟨[("w", 0)]⟩ [("class", .str "Adam")] [] "Adam" false rfl rfl,
   build_configurationError_conditions.2 ⟨1, false⟩ [] ["Adam"]
     ⟨[("w", 0)]⟩
     [("class", .str "Adam"), ("lr", .num 1),
      ("no_decay", .list [.str "bias"])]
     [("lr", Value.num 1), ("no_decay", Value.list [.str "bias"])]
     [("no_decay", Value.list [.str "bias"])] [] "Adam" false
     (Value.num 1) (Value.list [.str "bias"]) (.torch "Adam")
     rfl rfl rfl rfl rfl⟩

/-- C5 counterexample: the claim asserts that the fallback lookup in
the ecosystem namespace is case-insensitive. It is not: the name
`"adam"` differs only in case from the namespace member `"Adam"`
(their lowercased forms agree), yet resolution fails, both at the
resolver and through `build_optimizer`. -/
theorem resolveCls_fallback_case_sensitive :
    resolveCls [] ["Adam"] "adam" =
      .error (.unknownOptimizerError "adam") ∧
    lowerStr "adam" = lowerStr "Adam" ∧
    (["Adam"] : List String).contains "Adam" = true ∧
    build_optimizer ⟨1, false⟩ [] ["Adam"] ⟨[("w", 0)]⟩
        [("class", .str "adam"), ("lr", .num 1)] false =
      .error (.unknownOptimizerError "adam") :=
  ⟨rfl, rfl, rfl, rfl⟩

/-- C5 amended: resolution is two-tier with the registry consulted
first under the lowercased name — that tier is case-insensitive (names
with the same lowercased form resolve identically) — and only on a
registry miss is the ecosystem namespace consulted, under the name
verbatim, hence case-sensitively. -/
theorem resolveCls_two_tier_resolution :
    (∀ (registry torchNames : List String) (name : String),
       registry.contains (lowerStr name) = true →
       resolveCls registry torchNames name =
         .ok (.custom (lowerStr name))) ∧
    (∀ (registry torchNames : List String) (name name2 : String),
       lowerStr name = lowerStr name2 →
       registry.contains (lowerStr name) = true →
       resolveCls registry torchNames name =
         resolveCls registry torchNames name2) ∧
    (∀ (registry torchNames : List String) (name : String),
       registry.contains (lowerStr name) = false →
       torchNames.contains name = true →
       resolveCls registry torchNames name = .ok (.torch name)) ∧
    (∀ (registry torchNames : List String) (name : String),
       registry.contains (lowerStr name) = false →
       torchNames.contains name = false →
       resolveCls registry torchNames name =
         .error (.unknownOptimizerError name)) := by
  refine ⟨?_, ?_, ?_, ?_⟩
  · intro registry torchNames name h
    have h1 : lowerStr name ∈ registry := by simpa using h
    simp [resolveCls, h1]
  · intro registry torchNames name name2 he h
    have h1 : lowerStr name ∈ registry := by simpa using h
    have h2 : lowerStr name2 ∈ registry := he ▸ h1
    simp [resolveCls, h1, h2, he]
  · intro registry torchNames name h1 h2
    have h3 : ¬ lowerStr name ∈ registry := by simpa using h1
    have h4 : name ∈ torchNames := by simpa using h2
    simp [resolveCls, h3, h4]
  · intro registry torchNames name h1 h2
    have h3 : ¬ lowerStr name ∈ registry := by simpa using h1
    have h4 : ¬ name ∈ torchNames := by simpa using h2
    simp [resolveCls, h3, h4]

/-- Witness for the C5 amended theorem: with the registry `["sgd"]`
and the namespace `["Adam"]`, the names `"SGD"`, `"sgd"`, `"Adam"` and
`"frobnicator"` exercise the four conjuncts. -/
theorem resolveCls_two_tier_resolution_witness :
    (["sgd"] : List String).contains (lowerStr "SGD") = true ∧
    resolveCls ["sgd"] ["Adam"] "SGD" = .ok (.custom (lowerStr "SGD")) ∧
    lowerStr "SGD" = lowerStr "sgd" ∧
    resolveCls ["sgd"] ["Adam"] "SGD" =
      resolveCls ["sgd"] ["Adam"] "sgd" ∧
    resolveCls [] ["Adam"] "Adam" = .ok (.torch "Adam") ∧
    resolveCls [] ["Adam"] "frobnicator" =
      .error (.unknownOptimizerError "frobnicator") :=
  ⟨rfl,
   resolveCls_two_tier_resolution.1 ["sgd"] ["Adam"] "SGD" rfl,
   rfl,
   resolveCls_two_tier_resolution.2.1 ["sgd"] ["Adam"] "SGD" "sgd"
     rfl rfl,
   resolveCls_two_tier_resolution.2.2.1 [] ["Adam"] "Adam" rfl rfl,
   resolveCls_two_tier_resolution.2.2.2 [] ["Adam"] "frobnicator"
     rfl rfl⟩

/-- C6: the distributed wrapping stage runs only when the configured
worker count exceeds one, and then the construction trace opens with
the wrap followed immediately by exactly one broadcast of the model's
parameter state and one of the raw optimizer's state — the only
collective calls in the trace. With one worker, construction issues no
collective call, the handle is not distributed-wrapped, and neither
`step()` nor `zero_grad()` of the handle ever issues one. -/
theorem build_optimizer_collective_discipline
    (env : Environment) (registry torchNames : List String)
    (model : PModel) (cfg : Config) (apex : Bool) (m : PModel)
    (hd : OptimizerHandle) (ev : List Event)
    (hok : build_optimizer env registry torchNames model cfg apex =
      .ok ((m, hd), ev)) :
    (env.distributed_world ≤ 1 →
       ev.filter Event.isCollective = [] ∧
       hd.optimizer.stepEvents.filter Event.isCollective = [] ∧
       hd.optimizer.zeroGradEvents = [] ∧
       hd.optimizer.isDistWrapped = false) ∧
    (1 < env.distributed_world →
       ev.take 3 =
         [.wrapDistributed, .broadcastParameters,
          .broadcastOptimizerState] ∧
       ev.filter Event.isCollective =
         [.broadcastParameters, .broadcastOptimizerState] ∧
       hd.optimizer.isDistWrapped = true) := by
  rw [build_optimizer, exceptMap_ok] at hok
  obtain ⟨f, hfe, hasm⟩ := hok
  obtain ⟨sched, kwargs, base⟩ := f
  by_cases hw : 1 < env.distributed_world
  · refine ⟨fun hle => absurd hw (by omega), fun _ => ?_⟩
    cases apex <;>
      simp [assembleHandle, distributedStage, apexStage, hw,
        Prod.ext_iff] at hasm <;>
      obtain ⟨⟨hm, hh⟩, hev⟩ := hasm <;>
      subst hh <;> subst hev <;>
      simp [Event.isCollective, WrappedOptimizer.isDistWrapped]
  · refine ⟨fun _ => ?_, fun hgt => absurd hgt hw⟩
    cases apex <;>
      simp [assembleHandle, distributedStage, apexStage, hw,
        Prod.ext_iff] at hasm <;>
      obtain ⟨⟨hm, hh⟩, hev⟩ := hasm <;>
      subst hh <;> subst hev <;>
      simp [Event.isCollective, WrappedOptimizer.isDistWrapped,
        WrappedOptimizer.stepEvents, WrappedOptimizer.zeroGradEvents]

/-- Witness for C6 on the spec's example configuration
`{class: "sgd", lr: {class: "constant", rate: ...}, update_frequency: 4}`
with one worker: construction succeeds with an empty event trace and
an unwrapped optimizer, and no collective call exists anywhere. -/
theorem build_optimizer_collective_discipline_witness :
    build_optimizer ⟨1, false⟩ [] ["SGD"] ⟨[("w", 0)]⟩
        [("class", .str "SGD"),
         ("lr", .dict [("class", .str "constant"), ("rate", .num 1)]),
         ("update_frequency", .num 4)] false =
      .ok ((⟨[("w", 0)]⟩,
            ⟨.raw ⟨.torch "SGD", .raw [0], 1, []⟩,
             ⟨.dict [("class", .str "constant"), ("rate", .num 1)], 0⟩,
             [("update_frequency", .num 4),
              ("enable_apex", .bool false)]⟩),
           ([] : List Event)) ∧
    ((1 ≤ 1 →
       ([] : List Event).filter Event.isCollective = [] ∧
       (WrappedOptimizer.raw
           ⟨.torch "SGD", .raw [0], 1, []⟩).stepEvents.filter
         Event.isCollective = [] ∧
       (WrappedOptimizer.raw
           ⟨.torch "SGD", .raw [0], 1, []⟩).zeroGradEvents = [] ∧
       (WrappedOptimizer.raw
           ⟨.torch "SGD", .raw [0], 1, []⟩).isDistWrapped = false) ∧
     ((1 : ℕ) < 1 →
       ([] : List Event).take 3 =
         [.wrapDistributed, .broadcastParameters,
          .broadcastOptimizerState] ∧
       ([] : List Event).filter Event.isCollective =
         [.broadcastParameters, .broadcastOptimizerState] ∧
       (WrappedOptimizer.raw
           ⟨.torch "SGD", .raw [0], 1, []⟩).isDistWrapped = true)) :=
  ⟨rfl,
   build_optimizer_collective_discipline ⟨1, false⟩ [] ["SGD"]
     ⟨[("w", 0)]⟩
     [("class", .str "SGD"),
      ("lr", .dict [("class", .str "constant"), ("rate", .num 1)]),
      ("update_frequency", .num 4)] false ⟨[("w", 0)]⟩
     ⟨.raw ⟨.torch "SGD", .raw [0], 1, []⟩,
      ⟨.dict [("class", .str "constant"), ("rate", .num 1)], 0⟩,
      [("update_frequency", .num 4), ("enable_apex", .bool false)]⟩
     [] rfl⟩

/-- C7: for every key left after `class` is removed the resolver
attempts a literal parse of the value and never fails: a successful
parse replaces the value, a failed parse silently retains the original
string, a non-string value is retained as is, and the key set (and
order) of the configuration is untouched. The resolver is a total
function, so no error escapes this stage. -/
theorem resolveConfigs_literal_parse_fallback :
    (∀ c : Config,
       resolveConfigs c = c.map (fun p => (p.1, resolveValue p.2))) ∧
    (∀ c : Config,
       (resolveConfigs c).map Prod.fst = c.map Prod.fst) ∧
    (∀ (s : String) (v : Value),
       parseLiteral s = some v → resolveValue (.str s) = v) ∧
    (∀ s : String,
       parseLiteral s = none → resolveValue (.str s) = .str s) ∧
    (∀ v : Value, (∀ s, v ≠ .str s) → resolveValue v = v) ∧
    (∀ (c : Config) (k : String),
       lookupKey (resolveConfigs c) k =
         (lookupKey c k).map resolveValue) := by
  refine ⟨fun c => rfl, fun c => by simp [resolveConfigs], ?_, ?_, ?_,
    lookupKey_resolveConfigs⟩
  · intro s v h; simp [resolveValue, h]
  · intro s h; simp [resolveValue, h]
  · intro v hv
    cases v with
    | str s => exact absurd rfl (hv s)
    | _ => rfl

/-- Witness for C7: the string `"True"` parses to a boolean and is
replaced, the string `"bias"` fails to parse and is retained, a
numeric value is retained as is, and a concrete configuration keeps
its keys in order. -/
theorem resolveConfigs_literal_parse_fallback_witness :
    parseLiteral "True" = some (.bool true) ∧
    resolveValue (.str "True") = .bool true ∧
    parseLiteral "bias" = none ∧
    resolveValue (.str "bias") = .str "bias" ∧
    resolveValue (.num 4) = .num 4 ∧
    resolveConfigs [("nesterov", .str "True"), ("tag", .str "bias")] =
      [("nesterov", .bool true), ("tag", .str "bias")] :=
  ⟨rfl,
   resolveConfigs_literal_parse_fallback.2.2.1 "True" (.bool true) rfl,
   rfl,
   resolveConfigs_literal_parse_fallback.2.2.2.1 "bias" rfl,
   resolveConfigs_literal_parse_fallback.2.2.2.2.1 (.num 4)
     (fun _ h => Value.noConfusion h),
   rfl⟩

/-- C8: with more than one worker, the distributed wrapper is built
with `backward_passes_per_step` equal to the configured
`update_frequency` — the gradient-reduction cadence equals the
accumulation window — and its transmission compression is fp16 exactly
when whole-run mixed precision is on and the apex path is off. -/
theorem distributedStage_cadence_and_compression
    (env : Environment) (apex : Bool) (kwargs : Config)
    (opt : RawOptimizer) (u : Value)
    (hw : 1 < env.distributed_world)
    (hu : lookupKey kwargs "update_frequency" = some u) :
    (distributedStage env apex kwargs opt).1 =
      .dist ⟨opt, some u,
             if env.fp16 && !apex then .fp16 else .uncompressed⟩ ∧
    (env.fp16 = true → apex = false →
      (distributedStage env apex kwargs opt).1 =
        .dist ⟨opt, some u, .fp16⟩) := by
  constructor
  · simp [distributedStage, hw, hu]
  · intro hf ha; subst ha; simp [distributedStage, hw, hu, hf]

/-- Witness for C8 at two workers, fp16 on, apex off, and
`update_frequency = 4`. -/
theorem distributedStage_cadence_and_compression_witness :
    (1 < (2 : ℕ)) ∧
    lookupKey [("update_frequency", Value.num 4)] "update_frequency" =
      some (.num 4) ∧
    (distributedStage ⟨2, true⟩ false
        [("update_frequency", .num 4)]
        ⟨.torch "SGD", .raw [0], 1, []⟩).1 =
      .dist ⟨⟨.torch "SGD", .raw [0], 1, []⟩, some (.num 4), .fp16⟩ :=
  ⟨by decide, rfl,
   (distributedStage_cadence_and_compression ⟨2, true⟩ false
       [("update_frequency", .num 4)] ⟨.torch "SGD", .raw [0], 1, []⟩
       (.num 4) (by decide) rfl).2 rfl rfl⟩

/-- C9: taking some steps, emitting `state_dict()`, rebuilding a fresh
handle over the restored model (the model's parameter values come back
through the model's own checkpoint, per the coordinated contract),
restoring via `load_state_dict()`, and resuming on further inputs is
indistinguishable from one uninterrupted run: the restored step
counter equals the saved one and the final state — parameter values
included — matches the uninterrupted run exactly. -/
theorem handle_checkpoint_roundtrip (lrcfg : Value) (p0 : List ℚ)
    (ins1 ins2 : List (List ℚ)) :
    (handleLoadStateDict
        (initHandleState
          (runSteps lrcfg (initHandleState p0) ins1).params)
        (handleStateDict
          (runSteps lrcfg (initHandleState p0) ins1))).nsteps =
      (runSteps lrcfg (initHandleState p0) ins1).nsteps ∧
    runSteps lrcfg
        (handleLoadStateDict
          (initHandleState
            (runSteps lrcfg (initHandleState p0) ins1).params)
          (handleStateDict
            (runSteps lrcfg (initHandleState p0) ins1)))
        ins2 =
      runSteps lrcfg (initHandleState p0) (ins1 ++ ins2) := by
  have hre :
      handleLoadStateDict
          (initHandleState
            (runSteps lrcfg (initHandleState p0) ins1).params)
          (handleStateDict
            (runSteps lrcfg (initHandleState p0) ins1)) =
        runSteps lrcfg (initHandleState p0) ins1 := rfl
  constructor
  · rw [hre]
  · rw [hre]; simp [runSteps, List.foldl_append]

/-- Reading one reference is unaffected by writing another. -/
theorem dictStore_read_write_ne (st : DictStore) (r w : ℕ)
    (c : Config) (hne : r ≠ w) :
    (st.write w c).read r = st.read r := by
  simp only [DictStore.write, DictStore.read, List.getD_eq_getElem?_getD]
  rw [List.getElem?_set_ne (by omega)]

/-- Reading one reference is unaffected by popping a key through
another. -/
theorem dictStore_read_popAt_ne (st : DictStore) (r w : ℕ)
    (k : String) (hne : r ≠ w) :
    (st.popAt w k).read r = st.read r := by
  unfold DictStore.popAt
  cases popKey (st.read w) k with
  | none => rfl
  | some p => exact dictStore_read_write_ne st r w p.2 hne

/-- Reading one reference is unaffected by a fold of key pops through
another. -/
theorem dictStore_read_foldl_popAt_ne (ks : List String)
    (st : DictStore) (r w : ℕ) (hne : r ≠ w) :
    (ks.foldl (fun s k => s.popAt w k) st).read r = st.read r := by
  induction ks generalizing st with
  | nil => rfl
  | cons k rest ih =>
      simp only [List.foldl]
      rw [ih (st.popAt w k), dictStore_read_popAt_ne st r w k hne]

/-- C10: `build_optimizer` leaves the caller's configuration dict
unchanged: the deep copy at entry allocates a fresh dict, and every
later key removal and literal-parse replacement targets that fresh
reference only, so the caller's reference reads back exactly its old
contents. -/
theorem buildConfigMutations_frame (st : DictStore) (caller : ℕ)
    (hc : caller < st.dicts.length) :
    ((buildConfigMutations st caller).1).read caller =
      st.read caller := by
  unfold buildConfigMutations
  have hne : caller ≠ st.dicts.length := by omega
  simp only [DictStore.alloc]
  rw [dictStore_read_popAt_ne _ _ _ _ hne,
    dictStore_read_popAt_ne _ _ _ _ hne,
    dictStore_read_foldl_popAt_ne _ _ _ _ hne,
    dictStore_read_popAt_ne _ _ _ _ hne,
    dictStore_read_write_ne _ _ _ _ hne,
    dictStore_read_popAt_ne _ _ _ _ hne]
  simp only [DictStore.read, List.getD_eq_getElem?_getD]
  rw [List.getElem?_append_left hc]

/-- Witness for C10 on a one-dict store holding a configuration with
every mutated key present. -/
theorem buildConfigMutations_frame_witness :
    (0 : ℕ) <
      (DictStore.mk
        [[("class", Value.str "Adam"), ("lr", Value.num 1),
          ("update_frequency", Value.num 4),
          ("no_decay", Value.list [.str "bias"]),
          ("weight_decay", Value.num 0)]]).dicts.length ∧
    ((buildConfigMutations
        (DictStore.mk
          [[("class", Value.str "Adam"), ("lr", Value.num 1),
            ("update_frequency", Value.num 4),
            ("no_decay", Value.list [.str "bias"]),
            ("weight_decay", Value.num 0)]]) 0).1).read 0 =
      (DictStore.mk
        [[("class", Value.str "Adam"), ("lr", Value.num 1),
          ("update_frequency", Value.num 4),
          ("no_decay", Value.list [.str "bias"]),
          ("weight_decay", Value.num 0)]]).read 0 :=
  ⟨by decide,
   buildConfigMutations_frame
     (DictStore.mk
       [[("class", Value.str "Adam"), ("lr", Value.num 1),
         ("update_frequency", Value.num 4),
         ("no_decay", Value.list [.str "bias"]),
         ("weight_decay", Value.num 0)]]) 0 (by decide)⟩

end Bycha
